import Mathlib

/-!
# Error values of package `signed` (`tuf/signed/errors.go`)

A shallow embedding of the error types of the TUF signing package and of
their `Error()` methods, together with the fragment of the Go standard
library they call (`fmt.Sprintf` with the verbs `%d`, `%s`, `%v`, and
`strings.Join`).

Go `int` fields are embedded as `Int` (no arithmetic is performed on them, only
comparison and printing, so no overflow can occur); Go strings are embedded as
`String` (text, as valid UTF-8 strings are), slices of strings as `List String`,
where a nil slice and an empty slice are both the empty list.
-/

namespace signed

/-! ## The standard-library fragment -/

/-- Decimal rendering of a signed integer, as `strconv.FormatInt(i, 10)` (the
rendering `fmt` uses for `%d` and for `%v` of an `int`): a minus sign for a
negative number, then the digits of the magnitude without leading zeros. -/
def FormatInt (i : Int) : String :=
  if i < 0 then "-" ++ Nat.repr i.natAbs else Nat.repr i.natAbs

/-- An operand of `fmt.Sprintf`: the package passes only `int` and `string`
values. -/
inductive Arg where
  | int (i : Int)
  | str (s : String)
  deriving DecidableEq, Repr

/-- Go type name of an operand, as printed by the diagnostics of `fmt`. -/
def Arg.typeName : Arg → String
  | .int _ => "int"
  | .str _ => "string"

/-- Default rendering of an operand (`%v`). -/
def Arg.value : Arg → String
  | .int i => FormatInt i
  | .str s => s

/-- Rendering of one operand under the verb `verb`: `%d` prints an `int` in
decimal, `%s` prints a `string` as it is, `%v` prints either in its default
format; any other pairing goes through the bad-verb diagnostic
`%!verb(type=value)` of `fmt`. -/
def printArg (verb : Char) (a : Arg) : List Char :=
  match a with
  | .int i =>
    if verb = 'd' ∨ verb = 'v' then (FormatInt i).data
    else '%' :: '!' :: verb :: '(' :: ("int=" ++ FormatInt i ++ ")").data
  | .str s =>
    if verb = 's' ∨ verb = 'v' then s.data
    else '%' :: '!' :: verb :: '(' :: ("string=" ++ s ++ ")").data

/-- Diagnostic `fmt` appends when operands are left over at the end of the
format. -/
def extraArgs : List Arg → List Char
  | [] => []
  | args =>
    "%!(EXTRA ".data ++
      (", ".intercalate (args.map fun a => a.typeName ++ "=" ++ a.value)).data ++ [')']

/-- The formatting loop of `fmt.Sprintf` over the characters of the format:
ordinary characters are copied, `%%` prints a percent sign, `%` followed by a
verb consumes the next operand (or prints `%!verb(MISSING)` when none is left),
and a trailing `%` prints `%!(NOVERB)`. Flags, widths and precisions do not
occur in the formats of this package and are not interpreted. -/
def doPrintf : List Char → List Arg → List Char
  | [], args => extraArgs args
  | c :: rest, args =>
    if c ≠ '%' then c :: doPrintf rest args
    else
      match rest, args with
      | [], args => "%!(NOVERB)".data ++ extraArgs args
      | verb :: rest, args =>
        if verb = '%' then '%' :: doPrintf rest args
        else
          match args with
          | [] => '%' :: '!' :: verb :: "(MISSING)".data ++ doPrintf rest []
          | a :: args => printArg verb a ++ doPrintf rest args

/-- Embedding of `fmt.Sprintf(format, args...)`. -/
def Sprintf (format : String) (args : List Arg) : String :=
  ⟨doPrintf format.data args⟩

/-- Embedding of `strings.Join(elems, sep)`: nothing for no element, the element
itself for a single one, otherwise the first element followed, for each further
element in order, by `sep` and that element. -/
def Join (elems : List String) (sep : String) : String :=
  match elems with
  | [] => ""
  | [s] => s
  | s :: rest => rest.foldl (fun b x => b ++ sep ++ x) s

/-! ## The error types -/

/-- Embedding of `ErrInsufficientSignatures`: can not create enough signatures on a
piece of metadata. -/
structure ErrInsufficientSignatures where
  FoundKeys : Int
  NeededKeys : Int
  MissingKeyIDs : List String
  deriving DecidableEq, Repr

/-- Embedding of `ErrInsufficientSignatures.Error`. -/
def ErrInsufficientSignatures.Error (e : ErrInsufficientSignatures) : String :=
  let candidates := Join e.MissingKeyIDs ", "
  if (e.MissingKeyIDs.length : Int) < e.NeededKeys then
    Sprintf
      "cannot sign because while %d signatures are needed, an insufficient number of valid signing keys have been specified"
      [.int e.NeededKeys]
  else if e.FoundKeys = 0 then
    Sprintf "signing keys not available, need %d keys from: %s" [.int e.NeededKeys, .str candidates]
  else
    Sprintf "not enough signing keys: got %d of %d needed keys, other candidates: %s"
      [.int e.FoundKeys, .int e.NeededKeys, .str candidates]

/-- Embedding of `ErrExpired`: a piece of metadata has expired. -/
structure ErrExpired where
  Role : String
  Expired : String
  deriving DecidableEq, Repr

/-- Embedding of `ErrExpired.Error`. -/
def ErrExpired.Error (e : ErrExpired) : String :=
  Sprintf "%s expired at %v" [.str e.Role, .str e.Expired]

/-- Embedding of `ErrLowVersion`: the piece of metadata has a version number lower
than a version number already seen for this role. -/
structure ErrLowVersion where
  Actual : Int
  Current : Int
  deriving DecidableEq, Repr

/-- Embedding of `ErrLowVersion.Error`. -/
def ErrLowVersion.Error (e : ErrLowVersion) : String :=
  Sprintf "version %d is lower than current version %d" [.int e.Actual, .int e.Current]

/-- Embedding of `ErrRoleThreshold`: not enough signatures were validated to meet
the threshold. -/
structure ErrRoleThreshold where
  Msg : String
  deriving DecidableEq, Repr

/-- Embedding of `ErrRoleThreshold.Error`. -/
def ErrRoleThreshold.Error (e : ErrRoleThreshold) : String :=
  if e.Msg = "" then
    "valid signatures did not meet threshold"
  else
    e.Msg

/-- Embedding of `ErrInvalidKeyType` (a struct without fields): the types of the key
and of the signature it is associated with are mismatched. -/
structure ErrInvalidKeyType where
  deriving DecidableEq, Repr

/-- Embedding of `ErrInvalidKeyType.Error`. -/
def ErrInvalidKeyType.Error (_e : ErrInvalidKeyType) : String :=
  "key type is not valid for signature"

/-- Embedding of `ErrInvalidKeyID` (a struct without fields): the specified key ID
was incorrect for its associated data. -/
structure ErrInvalidKeyID where
  deriving DecidableEq, Repr

/-- Embedding of `ErrInvalidKeyID.Error`. -/
def ErrInvalidKeyID.Error (_e : ErrInvalidKeyID) : String :=
  "key ID is not valid for key content"

/-- Embedding of `ErrInvalidKeyLength`: the cipher may be supported, but the provided
key length is not. -/
structure ErrInvalidKeyLength where
  msg : String
  deriving DecidableEq, Repr

/-- Embedding of `ErrInvalidKeyLength.Error`. -/
def ErrInvalidKeyLength.Error (e : ErrInvalidKeyLength) : String :=
  Sprintf "key length is not supported: %s" [.str e.msg]

/-- Embedding of `ErrNoKeys`: no signing keys were found when trying to sign. -/
structure ErrNoKeys where
  KeyIDs : List String
  deriving DecidableEq, Repr

/-- Embedding of `ErrNoKeys.Error`. -/
def ErrNoKeys.Error (e : ErrNoKeys) : String :=
  Sprintf
    "could not find necessary signing keys, at least one of these keys must be available: %s"
    [.str (Join e.KeyIDs ", ")]

/-- The error values of the package as a caller holding an `error` sees them: one
alternative per error type of `errors.go`. -/
inductive Err where
  | insufficientSignatures (e : ErrInsufficientSignatures)
  | expired (e : ErrExpired)
  | lowVersion (e : ErrLowVersion)
  | roleThreshold (e : ErrRoleThreshold)
  | invalidKeyType (e : ErrInvalidKeyType)
  | invalidKeyID (e : ErrInvalidKeyID)
  | invalidKeyLength (e : ErrInvalidKeyLength)
  | noKeys (e : ErrNoKeys)
  deriving DecidableEq, Repr

/-- The dynamic type of an error value. -/
inductive Kind where
  | insufficientSignatures
  | expired
  | lowVersion
  | roleThreshold
  | invalidKeyType
  | invalidKeyID
  | invalidKeyLength
  | noKeys
  deriving DecidableEq, Repr

/-- Dynamic type of `x`. -/
def Err.kind : Err → Kind
  | .insufficientSignatures _ => .insufficientSignatures
  | .expired _ => .expired
  | .lowVersion _ => .lowVersion
  | .roleThreshold _ => .roleThreshold
  | .invalidKeyType _ => .invalidKeyType
  | .invalidKeyID _ => .invalidKeyID
  | .invalidKeyLength _ => .invalidKeyLength
  | .noKeys _ => .noKeys

/-- The call `err.Error()` through the interface: dispatch to the method of the
dynamic type. -/
def Err.Error : Err → String
  | .insufficientSignatures e => e.Error
  | .expired e => e.Error
  | .lowVersion e => e.Error
  | .roleThreshold e => e.Error
  | .invalidKeyType e => e.Error
  | .invalidKeyID e => e.Error
  | .invalidKeyLength e => e.Error
  | .noKeys e => e.Error

/-- An `ErrRoleThreshold` whose `Msg` is set: its message is whatever text the caller
supplied. -/
def Err.freeMessage : Err → Prop
  | .roleThreshold e => e.Msg ≠ ""
  | _ => False

/-- The error types whose message ends in text supplied by the caller (key IDs or a
detail string) after a fixed prefix. -/
def Err.carriesText : Err → Prop
  | .insufficientSignatures _ => True
  | .invalidKeyLength _ => True
  | .noKeys _ => True
  | _ => False

/-- Reads the error type off the first five characters of a message, for the
messages that start with a fixed text. -/
def classify (s : String) : Option Kind :=
  let p := s.data.take 5
  if p = "canno".data ∨ p = "signi".data ∨ p = "not e".data then some .insufficientSignatures
  else if p = "versi".data then some .lowVersion
  else if p = "valid".data then some .roleThreshold
  else if p = "key t".data then some .invalidKeyType
  else if p = "key I".data then some .invalidKeyID
  else if p = "key l".data then some .invalidKeyLength
  else if p = "could".data then some .noKeys
  else none

/-! ## The decision engine

`errors.go` declares the error values only; the checks that build them are described
in the specification (sections 3 and 4) and are modelled from there. -/

/-- Modelled from the spec: the `Role` of the data model (section 3), which
`errors.go` does not declare: a name, the required key IDs and the threshold. -/
structure Role where
  name : String
  requiredKeyIDs : List String
  threshold : Int
  deriving DecidableEq, Repr

/-- Modelled from the spec: the `SignatureRecord` of the data model (section 3), which
`errors.go` does not declare; `verified` is the verdict of the external signature
verifier. -/
structure SignatureRecord where
  keyID : String
  rawSignature : String
  verified : Bool
  deriving DecidableEq, Repr

/-- Modelled from the spec: the outcome of a check (section 4), missing from
`errors.go`: accepted, or rejected with one of the error values. -/
inductive Outcome where
  | Accepted
  | Rejected (reason : Err)
  deriving DecidableEq, Repr

/-- Modelled from the spec: the key IDs counted by the Threshold Policy Evaluator
(section 4.1), whose code is not in `errors.go`: the key IDs of the records that are
verified and whose key ID is required, each key ID once. -/
def validKeyIDs (role : Role) (signatureRecords : List SignatureRecord) : List String :=
  ((signatureRecords.filter fun r =>
    r.verified && decide (r.keyID ∈ role.requiredKeyIDs)).map fun r => r.keyID).dedup

/-- Modelled from the spec: `validCount` of section 4.1, computed by the evaluator
that is not in `errors.go`. -/
def validCount (role : Role) (signatureRecords : List SignatureRecord) : Int :=
  (validKeyIDs role signatureRecords).length

/-- Modelled from the spec: `Evaluate(role, signatureRecords)` of the Threshold Policy
Evaluator (section 4.1), whose code is not in `errors.go`: accepted if
`validCount ≥ threshold`, otherwise rejected with `InsufficientSignatures` carrying
`validCount`, the threshold and the required key IDs not present among the valid
records. -/
def Evaluate (role : Role) (signatureRecords : List SignatureRecord) : Outcome :=
  if role.threshold ≤ validCount role signatureRecords then
    .Accepted
  else
    .Rejected (.insufficientSignatures
      { FoundKeys := validCount role signatureRecords
        NeededKeys := role.threshold
        MissingKeyIDs := role.requiredKeyIDs.filter fun k =>
          decide (k ∉ validKeyIDs role signatureRecords) })

/-- Modelled from the spec: the `VersionLedger` of the data model (section 3), absent
from `errors.go`: a mapping from role name to the highest version accepted so
far. -/
abbrev VersionLedger := String → Option Int

/-- Modelled from the spec: the ledger entry `ledger[role]` as `CheckVersion` reads it
(section 4.2, code not in `errors.go`): a role absent from the ledger has current
version 0. -/
def currentVersion (ledger : VersionLedger) (role : String) : Int :=
  (ledger role).getD 0

/-- Modelled from the spec: `CheckVersion(role, candidateVersion, ledger)` of the
Freshness Checker (section 4.2), whose code is not in `errors.go`: rejected with
`LowVersion{actual: candidateVersion, current: ledger[role]}` if
`candidateVersion ≤ ledger[role]`, accepted otherwise. -/
def CheckVersion (role : String) (candidateVersion : Int) (ledger : VersionLedger) : Outcome :=
  if candidateVersion ≤ currentVersion ledger role then
    .Rejected (.lowVersion
      { Actual := candidateVersion, Current := currentVersion ledger role })
  else
    .Accepted

/-! ## Auxiliary notions for the message properties -/

/-- The three cases of the `switch` in `ErrInsufficientSignatures.Error`. -/
inductive Branch where
  | impossible
  | unavailable
  | notEnough
  deriving DecidableEq, Repr

/-- The case of the `switch` in `ErrInsufficientSignatures.Error` that `e` takes:
the cases are tried in order, the first whose condition holds is taken. -/
def ErrInsufficientSignatures.branch (e : ErrInsufficientSignatures) : Branch :=
  if (e.MissingKeyIDs.length : Int) < e.NeededKeys then .impossible
  else if e.FoundKeys = 0 then .unavailable
  else .notEnough

/-- Reads the case of the `switch` off the first character of a message of
`ErrInsufficientSignatures.Error`. -/
def branchOfMessage (s : String) : Option Branch :=
  match s.data with
  | 'c' :: _ => some .impossible
  | 's' :: _ => some .unavailable
  | 'n' :: _ => some .notEnough
  | _ => none

/-- Value of a string of decimal digits, most significant digit first. -/
def digitsValue (ds : List Char) : Nat :=
  ds.foldl (fun acc c => 10 * acc + (c.toNat - 48)) 0

/-! ## Unfolding the formats -/

theorem Join_eq_intercalate (elems : List String) (sep : String) :
    Join elems sep = sep.intercalate elems := by
  have go : ∀ (rest : List String) (acc : String),
      String.intercalate.go acc sep rest = rest.foldl (fun b x => b ++ sep ++ x) acc := by
    intro rest
    induction rest with
    | nil => intro acc; rfl
    | cons x xs ih => intro acc; simp [String.intercalate.go, ih]
  match elems with
  | [] => rfl
  | [s] => rfl
  | s :: t :: rest => simp [Join, String.intercalate, go]

theorem intercalate_go_eq (sep : String) (rest : List String) (acc : String) :
    String.intercalate.go acc sep rest = acc ++ String.intercalate.go "" sep rest := by
  induction rest generalizing acc with
  | nil => simp [String.intercalate.go]
  | cons x xs ih =>
    simp only [String.intercalate.go]
    rw [ih, ih ("" ++ sep ++ x)]
    simp [String.append_assoc]

theorem intercalate_cons_cons (a b : String) (rest : List String) :
    ", ".intercalate (a :: b :: rest) = a ++ ", " ++ ", ".intercalate (b :: rest) := by
  simp only [String.intercalate, String.intercalate.go]
  rw [intercalate_go_eq, intercalate_go_eq ", " rest b]
  simp [String.append_assoc]

theorem insufficient_impossible_eq (n : Int) :
    Sprintf
      "cannot sign because while %d signatures are needed, an insufficient number of valid signing keys have been specified"
      [.int n] =
    "cannot sign because while " ++ FormatInt n ++
      " signatures are needed, an insufficient number of valid signing keys have been specified" := by
  apply String.ext
  simp [Sprintf, doPrintf, printArg, extraArgs]

theorem insufficient_unavailable_eq (n : Int) (c : String) :
    Sprintf "signing keys not available, need %d keys from: %s" [.int n, .str c] =
    "signing keys not available, need " ++ FormatInt n ++ " keys from: " ++ c := by
  apply String.ext
  simp [Sprintf, doPrintf, printArg, extraArgs]

theorem insufficient_notEnough_eq (f n : Int) (c : String) :
    Sprintf "not enough signing keys: got %d of %d needed keys, other candidates: %s"
      [.int f, .int n, .str c] =
    "not enough signing keys: got " ++ FormatInt f ++ " of " ++ FormatInt n ++
      " needed keys, other candidates: " ++ c := by
  apply String.ext
  simp [Sprintf, doPrintf, printArg, extraArgs]

theorem expired_eq (r x : String) :
    Sprintf "%s expired at %v" [.str r, .str x] = r ++ " expired at " ++ x := by
  apply String.ext
  simp [Sprintf, doPrintf, printArg, extraArgs]

theorem lowVersion_eq (a c : Int) :
    Sprintf "version %d is lower than current version %d" [.int a, .int c] =
    "version " ++ FormatInt a ++ " is lower than current version " ++ FormatInt c := by
  apply String.ext
  simp [Sprintf, doPrintf, printArg, extraArgs]

theorem keyLength_eq (m : String) :
    Sprintf "key length is not supported: %s" [.str m] = "key length is not supported: " ++ m := by
  apply String.ext
  simp [Sprintf, doPrintf, printArg, extraArgs]

theorem noKeys_eq (c : String) :
    Sprintf
      "could not find necessary signing keys, at least one of these keys must be available: %s"
      [.str c] =
    "could not find necessary signing keys, at least one of these keys must be available: " ++ c := by
  apply String.ext
  simp [Sprintf, doPrintf, printArg, extraArgs]


theorem FormatInt_eq_toString (i : Int) : FormatInt i = toString i := by
  cases i with
  | ofNat n => simp [FormatInt, toString, instToStringInt]
  | negSucc n => simp [FormatInt, toString, Int.negSucc_lt_zero]

/-! ## `ErrInsufficientSignatures.Error` -/

/-- C1, as stated, fails: with one key found, one missing candidate and two needed,
the number of candidates `FoundKeys + len(MissingKeyIDs)` is not below `NeededKeys`,
yet `Error()` returns the structural-impossibility message. -/
theorem C1_counterexample :
    (0 : Int) ≤ (ErrInsufficientSignatures.mk 1 2 ["K2"]).FoundKeys ∧
    ¬ ((ErrInsufficientSignatures.mk 1 2 ["K2"]).Error =
        "cannot sign because while 2 signatures are needed, an insufficient number of valid signing keys have been specified"
      ↔ (ErrInsufficientSignatures.mk 1 2 ["K2"]).FoundKeys +
          ((ErrInsufficientSignatures.mk 1 2 ["K2"]).MissingKeyIDs.length : Int) <
          (ErrInsufficientSignatures.mk 1 2 ["K2"]).NeededKeys) := by
  decide

/-- C1 (amended): for every `ErrInsufficientSignatures` value with `FoundKeys >= 0`,
`Error()` returns the structural-impossibility message if and only if
`len(MissingKeyIDs) < NeededKeys`; this is the case in particular whenever
`FoundKeys + len(MissingKeyIDs) < NeededKeys`; in every other case `Error()` returns
one of the two "keys present but insufficient" messages. -/
theorem C1_impossible_iff_missing_lt_needed (e : ErrInsufficientSignatures)
    (hFound : 0 ≤ e.FoundKeys) :
    (e.Error =
        "cannot sign because while " ++ FormatInt e.NeededKeys ++
          " signatures are needed, an insufficient number of valid signing keys have been specified"
      ↔ (e.MissingKeyIDs.length : Int) < e.NeededKeys) ∧
    (e.FoundKeys + (e.MissingKeyIDs.length : Int) < e.NeededKeys →
      e.Error =
        "cannot sign because while " ++ FormatInt e.NeededKeys ++
          " signatures are needed, an insufficient number of valid signing keys have been specified") ∧
    (¬ (e.MissingKeyIDs.length : Int) < e.NeededKeys →
      e.Error =
          "signing keys not available, need " ++ FormatInt e.NeededKeys ++ " keys from: " ++
            ", ".intercalate e.MissingKeyIDs ∨
      e.Error =
          "not enough signing keys: got " ++ FormatInt e.FoundKeys ++ " of " ++
            FormatInt e.NeededKeys ++ " needed keys, other candidates: " ++
            ", ".intercalate e.MissingKeyIDs) := by
  have hyes : (e.MissingKeyIDs.length : Int) < e.NeededKeys →
      e.Error =
        "cannot sign because while " ++ FormatInt e.NeededKeys ++
          " signatures are needed, an insufficient number of valid signing keys have been specified" := by
    intro h
    simp only [ErrInsufficientSignatures.Error, h, if_true, insufficient_impossible_eq]
  refine ⟨⟨?_, hyes⟩, fun h => hyes (by omega), ?_⟩
  · intro h
    by_contra hlt
    by_cases h0 : e.FoundKeys = 0
    · simp only [ErrInsufficientSignatures.Error, hlt, if_false, h0, if_true,
        insufficient_unavailable_eq] at h
      have := congrArg String.data h
      simp at this
    · simp only [ErrInsufficientSignatures.Error, hlt, if_false, h0,
        insufficient_notEnough_eq] at h
      have := congrArg String.data h
      simp at this
  · intro hlt
    by_cases h0 : e.FoundKeys = 0
    · left
      simp only [ErrInsufficientSignatures.Error, hlt, if_false, h0, if_true,
        insufficient_unavailable_eq, Join_eq_intercalate]
    · right
      simp only [ErrInsufficientSignatures.Error, hlt, if_false, h0,
        insufficient_notEnough_eq, Join_eq_intercalate]

/-- Witness of C1 (amended) at `{FoundKeys: 1, NeededKeys: 2, MissingKeyIDs: ["K2"]}`:
a single missing candidate for two needed keys gives the structural-impossibility
message. -/
theorem C1_impossible_iff_missing_lt_needed_witness :
    (ErrInsufficientSignatures.mk 1 2 ["K2"]).Error =
      "cannot sign because while 2 signatures are needed, an insufficient number of valid signing keys have been specified" :=
  ((C1_impossible_iff_missing_lt_needed (ErrInsufficientSignatures.mk 1 2 ["K2"])
    (by decide)).1.2 (by decide)).trans (by decide)

/-- C2: for every `ErrInsufficientSignatures` value with `FoundKeys != 0` and
`len(MissingKeyIDs) >= NeededKeys`, `Error()` is
`"not enough signing keys: got <FoundKeys> of <NeededKeys> needed keys, other candidates: "`
followed by the missing key IDs in their given order joined by `", "`. -/
theorem C2_not_enough_message (e : ErrInsufficientSignatures)
    (hFound : e.FoundKeys ≠ 0) (hLen : e.NeededKeys ≤ (e.MissingKeyIDs.length : Int)) :
    e.Error =
      "not enough signing keys: got " ++ FormatInt e.FoundKeys ++ " of " ++
        FormatInt e.NeededKeys ++ " needed keys, other candidates: " ++
        ", ".intercalate e.MissingKeyIDs := by
  have hlt : ¬ (e.MissingKeyIDs.length : Int) < e.NeededKeys := by omega
  simp only [ErrInsufficientSignatures.Error, hlt, if_false, hFound,
    insufficient_notEnough_eq, Join_eq_intercalate]

/-- Witness of C2, the Scenario B value `{FoundKeys: 1, NeededKeys: 2,
MissingKeyIDs: ["K2", "K3"]}`: the message is
`"not enough signing keys: got 1 of 2 needed keys, other candidates: K2, K3"`. -/
theorem C2_not_enough_message_witness :
    (ErrInsufficientSignatures.mk 1 2 ["K2", "K3"]).Error =
      "not enough signing keys: got 1 of 2 needed keys, other candidates: K2, K3" :=
  (C2_not_enough_message (ErrInsufficientSignatures.mk 1 2 ["K2", "K3"])
    (by decide) (by decide)).trans (by decide)

/-! ## `ErrLowVersion`, the key-descriptor errors, `ErrRoleThreshold`, `ErrNoKeys`, `ErrExpired` -/

/-- C3: for all integers `Actual` and `Current` (equal and negative values included),
`ErrLowVersion{Actual, Current}.Error()` is `"version "`, the decimal of `Actual`,
`" is lower than current version "`, the decimal of `Current`: the candidate version
first, the current version second. The Scenario C value `{Actual: 5, Current: 5}`
yields `"version 5 is lower than current version 5"`. -/
theorem C3_low_version_message :
    (∀ Actual Current : Int,
      (ErrLowVersion.mk Actual Current).Error =
        "version " ++ FormatInt Actual ++ " is lower than current version " ++
          FormatInt Current) ∧
    (ErrLowVersion.mk 5 5).Error = "version 5 is lower than current version 5" ∧
    (ErrLowVersion.mk (-3) 12).Error = "version -3 is lower than current version 12" := by
  refine ⟨fun a c => ?_, by decide, by decide⟩
  simp only [ErrLowVersion.Error, lowVersion_eq]

/-- C4: the three key-descriptor errors are distinguished: for every detail string
`msg` the messages of `ErrInvalidKeyType{}`, `ErrInvalidKeyID{}` and
`ErrInvalidKeyLength{msg}` are pairwise different, and the first two are the
constants `"key type is not valid for signature"` and
`"key ID is not valid for key content"`. -/
theorem C4_key_errors_distinguished (msg : String) :
    (ErrInvalidKeyType.mk).Error ≠ (ErrInvalidKeyID.mk).Error ∧
    (ErrInvalidKeyType.mk).Error ≠ (ErrInvalidKeyLength.mk msg).Error ∧
    (ErrInvalidKeyID.mk).Error ≠ (ErrInvalidKeyLength.mk msg).Error ∧
    (ErrInvalidKeyType.mk).Error = "key type is not valid for signature" ∧
    (ErrInvalidKeyID.mk).Error = "key ID is not valid for key content" := by
  refine ⟨by decide, ?_, ?_, rfl, rfl⟩
  · intro h
    simp only [ErrInvalidKeyType.Error, ErrInvalidKeyLength.Error, keyLength_eq] at h
    have := congrArg String.data h
    simp at this
  · intro h
    simp only [ErrInvalidKeyID.Error, ErrInvalidKeyLength.Error, keyLength_eq] at h
    have := congrArg String.data h
    simp at this

/-- C5: for every `ErrRoleThreshold` value, `Error()` returns the generic message
`"valid signatures did not meet threshold"` when `Msg` is the empty string, and
returns `Msg` unchanged when `Msg` is non-empty. -/
theorem C5_role_threshold_message (e : ErrRoleThreshold) :
    (e.Msg = "" → e.Error = "valid signatures did not meet threshold") ∧
    (e.Msg ≠ "" → e.Error = e.Msg) := by
  constructor
  · intro h
    simp only [ErrRoleThreshold.Error, h, if_true]
  · intro h
    simp only [ErrRoleThreshold.Error, h, if_false]

/-- C6: for every list `KeyIDs`, `ErrNoKeys{KeyIDs}.Error()` is the prefix
`"could not find necessary signing keys, at least one of these keys must be available: "`
followed by the key IDs in their given order separated by `", "`: no separator for a
single ID, nothing after the prefix for an empty list. -/
theorem C6_no_keys_message :
    (∀ KeyIDs : List String,
      (ErrNoKeys.mk KeyIDs).Error =
        "could not find necessary signing keys, at least one of these keys must be available: "
          ++ ", ".intercalate KeyIDs) ∧
    (∀ id : String,
      (ErrNoKeys.mk [id]).Error =
        "could not find necessary signing keys, at least one of these keys must be available: "
          ++ id) ∧
    (∀ (id : String) (KeyIDs : List String), KeyIDs ≠ [] →
      ", ".intercalate (id :: KeyIDs) = id ++ ", " ++ ", ".intercalate KeyIDs) ∧
    (ErrNoKeys.mk []).Error =
      "could not find necessary signing keys, at least one of these keys must be available: " := by
  refine ⟨fun ids => ?_, fun id => ?_, ?_, by decide⟩
  · simp only [ErrNoKeys.Error, noKeys_eq, Join_eq_intercalate]
  · simp only [ErrNoKeys.Error, noKeys_eq, Join]
  · intro id ids hne
    cases ids with
    | nil => exact absurd rfl hne
    | cons k ks => exact intercalate_cons_cons id k ks

/-- C7: for all strings `Role` and `Expired`, `ErrExpired{Role, Expired}.Error()` is
`Role`, then `" expired at "`, then `Expired`: the rejection names both the role and
the expiry timestamp it was built with. -/
theorem C7_expired_message (Role Expired : String) :
    (ErrExpired.mk Role Expired).Error = Role ++ " expired at " ++ Expired := by
  simp only [ErrExpired.Error, expired_eq]

/-! ## Distinctness of the messages across error types -/

theorem digitChar_isDigit (m : Nat) (hm : m < 10) : (Nat.digitChar m).isDigit = true := by
  interval_cases m <;> rfl

theorem toDigitsCore_isDigit (fuel n : Nat) (ds : List Char)
    (hds : ∀ c ∈ ds, c.isDigit = true) :
    ∀ c ∈ Nat.toDigitsCore 10 fuel n ds, c.isDigit = true := by
  induction fuel generalizing n ds with
  | zero => simpa [Nat.toDigitsCore] using hds
  | succ fuel ih =>
    have hcons : ∀ c ∈ Nat.digitChar (n % 10) :: ds, c.isDigit = true := by
      intro c hc
      rcases List.mem_cons.mp hc with rfl | hc
      · exact digitChar_isDigit _ (Nat.mod_lt _ (by decide))
      · exact hds c hc
    simp only [Nat.toDigitsCore]
    split
    · exact hcons
    · exact ih _ _ hcons

theorem repr_isDigit (n : Nat) : ∀ c ∈ (Nat.repr n).data, c.isDigit = true :=
  toDigitsCore_isDigit _ _ [] (by simp)

theorem FormatInt_chars (i : Int) : ∀ c ∈ (FormatInt i).data, c = '-' ∨ c.isDigit = true := by
  intro c hc
  unfold FormatInt at hc
  split at hc
  · rw [String.data_append, List.mem_append] at hc
    rcases hc with hc | hc
    · left; simpa using hc
    · right; exact repr_isDigit _ c hc
  · right; exact repr_isDigit _ c hc

theorem FormatInt_no_x (i : Int) : 'x' ∉ (FormatInt i).data := by
  intro h
  rcases FormatInt_chars i 'x' h with h | h
  · exact absurd h (by decide)
  · exact absurd h (by decide)

/-- A message that starts with a fixed text is classified as its own type. -/
theorem classify_Error (x : Err) (hFree : ¬ x.freeMessage) (hKind : x.kind ≠ .expired) :
    classify x.Error = some x.kind := by
  cases x with
  | insufficientSignatures e =>
    simp only [Err.Error, Err.kind, ErrInsufficientSignatures.Error]
    split
    · simp [insufficient_impossible_eq, classify]
    · split
      · simp [insufficient_unavailable_eq, classify]
      · simp [insufficient_notEnough_eq, classify]
  | expired e => exact absurd rfl hKind
  | lowVersion e => simp [Err.Error, Err.kind, ErrLowVersion.Error, lowVersion_eq, classify]
  | roleThreshold e =>
    have hMsg : e.Msg = "" := by
      by_contra hne
      exact hFree hne
    simp only [Err.Error, Err.kind, ErrRoleThreshold.Error, hMsg, if_true]
    decide
  | invalidKeyType e => simp only [Err.Error, Err.kind, ErrInvalidKeyType.Error]; decide
  | invalidKeyID e => simp only [Err.Error, Err.kind, ErrInvalidKeyID.Error]; decide
  | invalidKeyLength e =>
    simp [Err.Error, Err.kind, ErrInvalidKeyLength.Error, keyLength_eq, classify]
  | noKeys e => simp [Err.Error, Err.kind, ErrNoKeys.Error, noKeys_eq, classify]

theorem expired_has_x (x : Err) (hKind : x.kind = .expired) : 'x' ∈ x.Error.data := by
  cases x with
  | expired e => simp [Err.Error, ErrExpired.Error, expired_eq]
  | _ => simp [Err.kind] at hKind

/-- The messages without caller-supplied text contain no letter `x`. -/
theorem plain_no_x (y : Err) (hFree : ¬ y.freeMessage) (hKind : y.kind ≠ .expired)
    (hText : ¬ y.carriesText) : 'x' ∉ y.Error.data := by
  cases y with
  | insufficientSignatures e => exact absurd trivial hText
  | expired e => exact absurd rfl hKind
  | lowVersion e =>
    simp [Err.Error, ErrLowVersion.Error, lowVersion_eq, FormatInt_no_x]
  | roleThreshold e =>
    have hMsg : e.Msg = "" := by
      by_contra hne
      exact hFree hne
    simp only [Err.Error, ErrRoleThreshold.Error, hMsg, if_true]
    decide
  | invalidKeyType e => simp only [Err.Error, ErrInvalidKeyType.Error]; decide
  | invalidKeyID e => simp only [Err.Error, ErrInvalidKeyID.Error]; decide
  | invalidKeyLength e => exact absurd trivial hText
  | noKeys e => exact absurd trivial hText

/-- C8, as stated, fails: an `ErrRoleThreshold` prints whatever `Msg` it carries, so
with `Msg` set to the text of `ErrInvalidKeyType` two values of different types have
the same message. -/
theorem C8_counterexample :
    (Err.roleThreshold ⟨"key type is not valid for signature"⟩).kind ≠
      (Err.invalidKeyType ⟨⟩).kind ∧
    (Err.roleThreshold ⟨"key type is not valid for signature"⟩).Error =
      (Err.invalidKeyType ⟨⟩).Error := by
  decide

/-- An `ErrExpired` prints its caller-supplied `Role` first, so it collides with each
error type whose message ends in caller-supplied text. -/
theorem expired_collisions :
    (Err.expired ⟨"key length is not supported: a", "b"⟩).Error =
      (Err.invalidKeyLength ⟨"a expired at b"⟩).Error ∧
    (Err.expired
        ⟨"could not find necessary signing keys, at least one of these keys must be available: a",
          "b"⟩).Error =
      (Err.noKeys ⟨["a expired at b"]⟩).Error ∧
    (Err.expired ⟨"signing keys not available, need 1 keys from: a", "b"⟩).Error =
      (Err.insufficientSignatures ⟨0, 1, ["a expired at b"]⟩).Error := by
  decide

/-- C8 (amended): for any two error values of two different types among the eight,
the `Error()` strings are different for all field values, provided that neither
value is an `ErrRoleThreshold` with a non-empty `Msg`, and that an `ErrExpired` is
not paired with an `ErrInsufficientSignatures`, `ErrInvalidKeyLength` or `ErrNoKeys`
(the types whose message ends in caller-supplied text). -/
theorem C8_messages_distinct (x y : Err) (hKind : x.kind ≠ y.kind)
    (hx : ¬ x.freeMessage) (hy : ¬ y.freeMessage)
    (hxy : ¬ (x.kind = .expired ∧ y.carriesText))
    (hyx : ¬ (y.kind = .expired ∧ x.carriesText)) :
    x.Error ≠ y.Error := by
  intro h
  by_cases hxe : x.kind = .expired
  · have hye : y.kind ≠ .expired := fun hk => hKind (hxe.trans hk.symm)
    have hin : 'x' ∈ y.Error.data := h ▸ expired_has_x x hxe
    exact plain_no_x y hy hye (fun ht => hxy ⟨hxe, ht⟩) hin
  · by_cases hye : y.kind = .expired
    · have hin : 'x' ∈ x.Error.data := h ▸ expired_has_x y hye
      exact plain_no_x x hx hxe (fun ht => hyx ⟨hye, ht⟩) hin
    · have h1 := classify_Error x hx hxe
      have h2 := classify_Error y hy hye
      rw [h, h2] at h1
      exact hKind (Option.some.inj h1).symm

/-- Witness of C8 (amended): an `ErrLowVersion` and an `ErrNoKeys` value have
different messages. -/
theorem C8_messages_distinct_witness :
    (Err.lowVersion ⟨5, 5⟩).Error ≠ (Err.noKeys ⟨["K1"]⟩).Error :=
  C8_messages_distinct (Err.lowVersion ⟨5, 5⟩) (Err.noKeys ⟨["K1"]⟩)
    (by decide) (by simp [Err.freeMessage]) (by simp [Err.freeMessage])
    (by simp [Err.kind]) (by simp [Err.kind, Err.carriesText])

/-! ## The checks that build the errors -/

theorem mem_validKeyIDs (role : Role) (records : List SignatureRecord) (k : String) :
    k ∈ validKeyIDs role records ↔
      k ∈ role.requiredKeyIDs ∧ ∃ r ∈ records, r.keyID = k ∧ r.verified = true := by
  simp only [validKeyIDs, List.mem_dedup, List.mem_map, List.mem_filter, Bool.and_eq_true,
    decide_eq_true_eq]
  constructor
  · rintro ⟨r, ⟨hr, hv, hreq⟩, rfl⟩
    exact ⟨hreq, r, hr, rfl, hv⟩
  · rintro ⟨hreq, r, hr, rfl, hv⟩
    exact ⟨r, ⟨hr, hv, hreq⟩, rfl⟩

theorem validCount_eq_card (role : Role) (records : List SignatureRecord) :
    validCount role records =
      ((role.requiredKeyIDs.toFinset.filter fun k =>
        ∃ r ∈ records, r.keyID = k ∧ r.verified = true).card : Int) := by
  have hnodup : (validKeyIDs role records).Nodup := List.nodup_dedup _
  have hset : (validKeyIDs role records).toFinset =
      role.requiredKeyIDs.toFinset.filter fun k =>
        ∃ r ∈ records, r.keyID = k ∧ r.verified = true := by
    ext k
    simp [mem_validKeyIDs]
  rw [← hset, List.toFinset_card_of_nodup hnodup]
  rfl

/-- C9: for every role and every list of signature records, the Threshold Policy
Evaluator accepts iff `validCount >= threshold`, where `validCount` is the number of
distinct required key IDs that have a verified record (between 0 and the number of
required key IDs; a key signing twice counts once); otherwise it rejects with `ErrInsufficientSignatures{FoundKeys: validCount,
NeededKeys: threshold, MissingKeyIDs: the required IDs without a verified record}`. -/
theorem C9_threshold_acceptance (role : Role) (records : List SignatureRecord) :
    validCount role records =
      ((role.requiredKeyIDs.toFinset.filter fun k =>
        ∃ r ∈ records, r.keyID = k ∧ r.verified = true).card : Int) ∧
    (0 ≤ validCount role records ∧
      validCount role records ≤ (role.requiredKeyIDs.length : Int)) ∧
    (∀ r : SignatureRecord, validCount role (r :: r :: records) = validCount role (r :: records)) ∧
    (Evaluate role records = .Accepted ↔ role.threshold ≤ validCount role records) ∧
    (¬ role.threshold ≤ validCount role records →
      Evaluate role records =
        .Rejected (.insufficientSignatures
          { FoundKeys := validCount role records
            NeededKeys := role.threshold
            MissingKeyIDs := role.requiredKeyIDs.filter fun k =>
              decide (¬ ∃ r ∈ records, r.keyID = k ∧ r.verified = true) })) := by
  refine ⟨validCount_eq_card role records, ⟨?_, ?_⟩, ?_, ?_, ?_⟩
  · simp [validCount]
  · rw [validCount_eq_card]
    exact_mod_cast (Finset.card_filter_le _ _).trans (List.toFinset_card_le _)
  · intro r
    rw [validCount_eq_card, validCount_eq_card]
    congr 2
    ext k
    simp
  · unfold Evaluate
    split
    · rename_i h
      simp [h]
    · rename_i h
      simp [h]
  · intro h
    have hfilter : (role.requiredKeyIDs.filter fun k => decide (k ∉ validKeyIDs role records)) =
        role.requiredKeyIDs.filter fun k =>
          decide (¬ ∃ r ∈ records, r.keyID = k ∧ r.verified = true) := by
      apply List.filter_congr
      intro k hk
      simp [mem_validKeyIDs, hk]
    simp only [Evaluate, h, if_false, hfilter]

/-- Scenarios A and B of the specification: threshold 2 over `{K1, K2, K3}`; valid
signatures from `K1` and `K3` are accepted; a valid signature from `K1` only (here
signed twice, next to an unverified `K2`) is rejected with
`{FoundKeys: 1, NeededKeys: 2, MissingKeyIDs: [K2, K3]}`. -/
theorem Evaluate_scenarios :
    Evaluate ⟨"targets", ["K1", "K2", "K3"], 2⟩
        [⟨"K1", "s1", true⟩, ⟨"K3", "s3", true⟩] = .Accepted ∧
    Evaluate ⟨"targets", ["K1", "K2", "K3"], 2⟩
        [⟨"K1", "s1", true⟩, ⟨"K2", "s2", false⟩, ⟨"K1", "s1", true⟩] =
      .Rejected (.insufficientSignatures ⟨1, 2, ["K2", "K3"]⟩) := by
  decide

/-- C10: for every role and candidate version, `CheckVersion` rejects with
`ErrLowVersion{Actual: candidateVersion, Current: ledger[role]}` exactly when
`candidateVersion <= ledger[role]` and accepts otherwise; an equal version is
rejected, a role absent from the ledger counts as current version 0, and every
`ErrLowVersion` the check produces satisfies `Actual <= Current`. -/
theorem C10_check_version (role : String) (candidateVersion : Int) (ledger : VersionLedger) :
    (CheckVersion role candidateVersion ledger =
        .Rejected (.lowVersion
          { Actual := candidateVersion, Current := currentVersion ledger role }) ↔
      candidateVersion ≤ currentVersion ledger role) ∧
    (CheckVersion role candidateVersion ledger = .Accepted ↔
      ¬ candidateVersion ≤ currentVersion ledger role) ∧
    (ledger role = some candidateVersion →
      CheckVersion role candidateVersion ledger =
        .Rejected (.lowVersion { Actual := candidateVersion, Current := candidateVersion })) ∧
    (ledger role = none → currentVersion ledger role = 0) ∧
    (ledger role = none → 1 ≤ candidateVersion →
      CheckVersion role candidateVersion ledger = .Accepted) ∧
    (∀ reason : Err, CheckVersion role candidateVersion ledger = .Rejected reason →
      ∃ e : ErrLowVersion, reason = .lowVersion e ∧ e.Actual ≤ e.Current) := by
  refine ⟨?_, ?_, ?_, ?_, ?_, ?_⟩
  · unfold CheckVersion
    split
    · rename_i h
      simp [h]
    · rename_i h
      simp [h]
  · unfold CheckVersion
    split
    · rename_i h
      simp [h]
    · rename_i h
      simp [h]
  · intro h
    simp [CheckVersion, currentVersion, h]
  · intro h
    simp [currentVersion, h]
  · intro h hv
    have : ¬ candidateVersion ≤ 0 := by omega
    simp [CheckVersion, currentVersion, h, this]
  · intro reason h
    unfold CheckVersion at h
    split at h
    · rename_i hle
      injection h with h
      exact ⟨_, h.symm, hle⟩
    · exact absurd h (by simp)

/-- Scenario C of the specification: with `ledger[roleX] = 5`, candidate version 5 is
rejected with `{Actual: 5, Current: 5}`, candidate version 6 is accepted, and the
first version of a role the ledger does not know is accepted. -/
theorem CheckVersion_scenarios :
    CheckVersion "roleX" 5 (fun r => if r = "roleX" then some 5 else none) =
      .Rejected (.lowVersion ⟨5, 5⟩) ∧
    CheckVersion "roleX" 6 (fun r => if r = "roleX" then some 5 else none) = .Accepted ∧
    CheckVersion "roleY" 1 (fun r => if r = "roleX" then some 5 else none) = .Accepted := by
  decide

/-! ## The cases of `ErrInsufficientSignatures.Error` -/

/-- C11: the sub-case test has precedence over the zero-found test: for every
`ErrInsufficientSignatures` value with `len(MissingKeyIDs) < NeededKeys`, `Error()` is
`"cannot sign because while <NeededKeys> signatures are needed, an insufficient number
of valid signing keys have been specified"`, whatever `FoundKeys` and the contents of
`MissingKeyIDs` are; two such values with the same `NeededKeys` give the same
message. -/
theorem C11_impossible_has_precedence (e e2 : ErrInsufficientSignatures)
    (h : (e.MissingKeyIDs.length : Int) < e.NeededKeys)
    (h2 : (e2.MissingKeyIDs.length : Int) < e2.NeededKeys) :
    e.Error =
      "cannot sign because while " ++ FormatInt e.NeededKeys ++
        " signatures are needed, an insufficient number of valid signing keys have been specified" ∧
    (e.NeededKeys = e2.NeededKeys → e.Error = e2.Error) := by
  have msg : ∀ x : ErrInsufficientSignatures, (x.MissingKeyIDs.length : Int) < x.NeededKeys →
      x.Error =
        "cannot sign because while " ++ FormatInt x.NeededKeys ++
          " signatures are needed, an insufficient number of valid signing keys have been specified" := by
    intro x hx
    simp only [ErrInsufficientSignatures.Error, hx, if_true, insufficient_impossible_eq]
  refine ⟨msg e h, fun hN => ?_⟩
  rw [msg e h, msg e2 h2, hN]

/-- Witness of C11: `{FoundKeys: 0, NeededKeys: 2, MissingKeyIDs: ["K2"]}` (no key
found) and `{FoundKeys: 5, NeededKeys: 2, MissingKeyIDs: []}` both print the
structural-impossibility message for 2 signatures. -/
theorem C11_impossible_has_precedence_witness :
    (ErrInsufficientSignatures.mk 0 2 ["K2"]).Error =
      "cannot sign because while 2 signatures are needed, an insufficient number of valid signing keys have been specified" ∧
    (ErrInsufficientSignatures.mk 0 2 ["K2"]).Error =
      (ErrInsufficientSignatures.mk 5 2 []).Error :=
  ⟨(C11_impossible_has_precedence (ErrInsufficientSignatures.mk 0 2 ["K2"])
      (ErrInsufficientSignatures.mk 5 2 []) (by decide) (by decide)).1.trans (by decide),
    (C11_impossible_has_precedence (ErrInsufficientSignatures.mk 0 2 ["K2"])
      (ErrInsufficientSignatures.mk 5 2 []) (by decide) (by decide)).2 rfl⟩

/-- C12: for every `ErrInsufficientSignatures` value with `FoundKeys == 0` and
`len(MissingKeyIDs) >= NeededKeys`, `Error()` is
`"signing keys not available, need <NeededKeys> keys from: "` followed by the missing
key IDs in their given order joined by `", "`; with `NeededKeys <= 0` and an empty
list nothing follows the final `": "`. -/
theorem C12_unavailable_message (e : ErrInsufficientSignatures)
    (hFound : e.FoundKeys = 0) (hLen : e.NeededKeys ≤ (e.MissingKeyIDs.length : Int)) :
    e.Error =
      "signing keys not available, need " ++ FormatInt e.NeededKeys ++ " keys from: " ++
        ", ".intercalate e.MissingKeyIDs ∧
    (e.MissingKeyIDs = [] →
      e.NeededKeys ≤ 0 ∧
      e.Error = "signing keys not available, need " ++ FormatInt e.NeededKeys ++ " keys from: ") := by
  have hlt : ¬ (e.MissingKeyIDs.length : Int) < e.NeededKeys := by omega
  have hmsg : e.Error =
      "signing keys not available, need " ++ FormatInt e.NeededKeys ++ " keys from: " ++
        ", ".intercalate e.MissingKeyIDs := by
    simp only [ErrInsufficientSignatures.Error, hlt, if_false, hFound, if_true,
      insufficient_unavailable_eq, Join_eq_intercalate]
  refine ⟨hmsg, fun hnil => ⟨?_, ?_⟩⟩
  · simpa [hnil] using hLen
  · rw [hmsg, hnil]
    simp [String.intercalate]

/-- Witness of C12: `{FoundKeys: 0, NeededKeys: 2, MissingKeyIDs: ["K1", "K2", "K3"]}`
prints `"signing keys not available, need 2 keys from: K1, K2, K3"`. -/
theorem C12_unavailable_message_witness :
    (ErrInsufficientSignatures.mk 0 2 ["K1", "K2", "K3"]).Error =
      "signing keys not available, need 2 keys from: K1, K2, K3" :=
  (C12_unavailable_message (ErrInsufficientSignatures.mk 0 2 ["K1", "K2", "K3"])
    (by decide) (by decide)).1.trans (by decide)

/-- With no key needed and none missing, nothing follows the final colon, also for a
negative `NeededKeys`. -/
theorem unavailable_empty_examples :
    (ErrInsufficientSignatures.mk 0 0 []).Error =
      "signing keys not available, need 0 keys from: " ∧
    (ErrInsufficientSignatures.mk 0 (-1) []).Error =
      "signing keys not available, need -1 keys from: " := by
  decide

/-- The first character of the message tells the case of the `switch`. -/
theorem branchOfMessage_Error (e : ErrInsufficientSignatures) :
    branchOfMessage e.Error = some e.branch := by
  unfold ErrInsufficientSignatures.Error ErrInsufficientSignatures.branch
  split
  · simp [insufficient_impossible_eq, branchOfMessage]
  · split
    · simp [insufficient_unavailable_eq, branchOfMessage]
    · simp [insufficient_notEnough_eq, branchOfMessage]

/-- C13: the three message shapes of `ErrInsufficientSignatures.Error()` never
collide: two values that fall into different cases of the `switch` have different
messages, for all field values and key-ID contents; the case taken is recovered from
the message by `branchOfMessage`. -/
theorem C13_branches_never_collide (e1 e2 : ErrInsufficientSignatures)
    (hBranch : e1.branch ≠ e2.branch) :
    e1.Error ≠ e2.Error ∧
    branchOfMessage e1.Error = some e1.branch ∧
    branchOfMessage e2.Error = some e2.branch := by
  refine ⟨fun h => ?_, branchOfMessage_Error e1, branchOfMessage_Error e2⟩
  have h1 := branchOfMessage_Error e1
  rw [h, branchOfMessage_Error e2] at h1
  exact hBranch (Option.some.inj h1).symm

/-- Witness of C13: a value of the first case and a value of the default case, with
the same `NeededKeys`, have different messages. -/
theorem C13_branches_never_collide_witness :
    (ErrInsufficientSignatures.mk 1 2 ["K2"]).Error ≠
      (ErrInsufficientSignatures.mk 1 2 ["K2", "K3"]).Error :=
  (C13_branches_never_collide (ErrInsufficientSignatures.mk 1 2 ["K2"])
    (ErrInsufficientSignatures.mk 1 2 ["K2", "K3"]) (by decide)).1

/-! ## `ErrRoleThreshold.Error` as a normaliser, `ErrExpired.Error` is ambiguous -/

/-- C15: `ErrRoleThreshold.Error()` never returns the empty string, for every value
of `Msg`, and it is idempotent as a message normaliser: building an
`ErrRoleThreshold` from the message of another gives the same message. -/
theorem C15_role_threshold_normaliser (m : String) :
    (ErrRoleThreshold.mk m).Error ≠ "" ∧
    (ErrRoleThreshold.mk (ErrRoleThreshold.mk m).Error).Error = (ErrRoleThreshold.mk m).Error := by
  by_cases hm : m = ""
  · subst hm
    constructor <;> decide
  · simp [ErrRoleThreshold.Error, hm]

/-- C16: `ErrExpired.Error()` is not injective: the values
`{Role: "a expired at b", Expired: "c"}` and `{Role: "a", Expired: "b expired at c"}`
differ in `Role` and in `Expired` and have the same message
`"a expired at b expired at c"`, so role and expiry cannot in general be recovered
from the message. -/
theorem C16_expired_not_injective :
    (ErrExpired.mk "a expired at b" "c").Role ≠ (ErrExpired.mk "a" "b expired at c").Role ∧
    (ErrExpired.mk "a expired at b" "c").Expired ≠
      (ErrExpired.mk "a" "b expired at c").Expired ∧
    (ErrExpired.mk "a expired at b" "c").Error = "a expired at b expired at c" ∧
    (ErrExpired.mk "a" "b expired at c").Error = "a expired at b expired at c" ∧
    ¬ Function.Injective ErrExpired.Error := by
  refine ⟨by decide, by decide, by decide, by decide, fun hinj => ?_⟩
  have h : (ErrExpired.mk "a expired at b" "c").Error =
      (ErrExpired.mk "a" "b expired at c").Error := by decide
  exact absurd (hinj h) (by decide)

/-! ## `ErrLowVersion.Error` loses no information -/

theorem digitChar_toNat (m : Nat) (hm : m < 10) : (Nat.digitChar m).toNat - 48 = m := by
  interval_cases m <;> rfl

theorem digitsValue_toDigitsCore (fuel n : Nat) (ds : List Char) (hfuel : n < fuel) :
    (Nat.toDigitsCore 10 fuel n ds).foldl (fun acc c => 10 * acc + (c.toNat - 48)) 0 =
      ds.foldl (fun acc c => 10 * acc + (c.toNat - 48)) n := by
  induction fuel generalizing n ds with
  | zero => omega
  | succ fuel ih =>
    have hd : (Nat.digitChar (n % 10)).toNat - 48 = n % 10 :=
      digitChar_toNat _ (Nat.mod_lt _ (by decide))
    simp only [Nat.toDigitsCore]
    split
    · rename_i h0
      simp only [List.foldl_cons, hd]
      congr 1
      omega
    · rename_i h0
      rw [ih (n / 10) _ (by omega)]
      simp only [List.foldl_cons, hd]
      congr 1
      omega

/-- Reading back the decimal digits of a natural number gives the number. -/
theorem digitsValue_repr (n : Nat) : digitsValue (Nat.repr n).data = n := by
  have h := digitsValue_toDigitsCore (n + 1) n [] (Nat.lt_succ_self n)
  simpa [digitsValue, Nat.repr, Nat.toDigits, List.asString] using h

theorem repr_injective (a b : Nat) (h : Nat.repr a = Nat.repr b) : a = b := by
  rw [← digitsValue_repr a, ← digitsValue_repr b, h]

theorem repr_no_minus (n : Nat) : '-' ∉ (Nat.repr n).data := by
  intro h
  exact absurd (repr_isDigit n _ h) (by decide)

/-- The decimal rendering determines the integer. -/
theorem FormatInt_injective (a b : Int) (h : FormatInt a = FormatInt b) : a = b := by
  unfold FormatInt at h
  split at h <;> split at h
  · have hd := congrArg String.data h
    simp only [String.data_append, List.append_cancel_left_eq] at hd
    have := repr_injective _ _ (String.ext hd)
    omega
  · exfalso
    apply repr_no_minus b.natAbs
    rw [← h]
    simp
  · exfalso
    apply repr_no_minus a.natAbs
    rw [h]
    simp
  · have := repr_injective _ _ h
    omega

theorem FormatInt_no_space (i : Int) : ' ' ∉ (FormatInt i).data := by
  intro h
  rcases FormatInt_chars i ' ' h with h | h
  · exact absurd h (by decide)
  · exact absurd h (by decide)

/-- Two texts without a space, each followed by a space and a rest, are equal only if
the texts and the rests are. -/
theorem split_at_space (l1 l2 r1 r2 : List Char) (h1 : ' ' ∉ l1) (h2 : ' ' ∉ l2)
    (h : l1 ++ ' ' :: r1 = l2 ++ ' ' :: r2) : l1 = l2 ∧ r1 = r2 := by
  induction l1 generalizing l2 with
  | nil =>
    cases l2 with
    | nil => simpa using h
    | cons c cs =>
      simp only [List.nil_append, List.cons_append, List.cons.injEq] at h
      exact absurd (h.1 ▸ List.mem_cons_self _ _) h2
  | cons d ds ih =>
    cases l2 with
    | nil =>
      simp only [List.nil_append, List.cons_append, List.cons.injEq] at h
      exact absurd (h.1 ▸ List.mem_cons_self _ _) h1
    | cons c cs =>
      simp only [List.cons_append, List.cons.injEq] at h
      obtain ⟨hl, hr⟩ := ih cs (fun hm => h1 (List.mem_cons_of_mem _ hm))
        (fun hm => h2 (List.mem_cons_of_mem _ hm)) h.2
      exact ⟨by rw [h.1, hl], hr⟩

/-- C14: `ErrLowVersion.Error()` is injective: for all integers `a1`, `c1`, `a2`, `c2`,
if the messages of `ErrLowVersion{a1, c1}` and `ErrLowVersion{a2, c2}` are equal then
`a1 = a2` and `c1 = c2`; the message loses neither the actual nor the current
version. -/
theorem C14_low_version_injective (a1 c1 a2 c2 : Int)
    (h : (ErrLowVersion.mk a1 c1).Error = (ErrLowVersion.mk a2 c2).Error) :
    a1 = a2 ∧ c1 = c2 := by
  simp only [ErrLowVersion.Error, lowVersion_eq] at h
  have hd := congrArg String.data h
  simp only [String.data_append] at hd
  have hd2 : (FormatInt a1).data ++ ' ' :: ("is lower than current version ".data ++
        (FormatInt c1).data) =
      (FormatInt a2).data ++ ' ' :: ("is lower than current version ".data ++
        (FormatInt c2).data) := by
    simpa using hd
  obtain ⟨ha, hc⟩ := split_at_space _ _ _ _ (FormatInt_no_space a1) (FormatInt_no_space a2) hd2
  have hc2 : (FormatInt c1).data = (FormatInt c2).data := List.append_cancel_left hc
  exact ⟨FormatInt_injective _ _ (String.ext ha), FormatInt_injective _ _ (String.ext hc2)⟩

/-- Witness of C14 at `{Actual: -7, Current: 12}` taken twice: the messages are equal,
and so are the fields. -/
theorem C14_low_version_injective_witness :
    (ErrLowVersion.mk (-7) 12).Error = (ErrLowVersion.mk (-7) 12).Error ∧
    ((-7 : Int) = -7 ∧ (12 : Int) = 12) :=
  ⟨rfl, C14_low_version_injective (-7) 12 (-7) 12 rfl⟩

end signed
